import Mathlib

/-!
Verification of the AirBnB_clone_v3 REST API view layer.

The Flask view modules under `api/v1/views/` are embedded shallowly:
each route handler becomes a Lean function from a storage state and a
parsed request body to an HTTP response (status code plus JSON payload)
and, for mutating handlers, a successor storage state.

Python objects whose attributes are manipulated dynamically
(`setattr` over arbitrary JSON keys in the PUT handlers) are embedded
as association lists from attribute names to JSON values.  The
`models` package (domain classes and the storage engine) is not part
of the view sources; where a definition depends on it, the definition
is modelled from the specification and says so in its doc comment.
-/

namespace AirBnB

/-- JSON scalar values as they appear in request/response bodies.
`strs` serializes a list of id strings (used for the `amenities`
attribute of a serialized `Place`). -/
inductive JVal where
  | s (v : String)
  | n (v : Int)
  | b (v : Bool)
  | null
  | strs (vs : List String)
  deriving DecidableEq

/-- A Python object's attribute dictionary / a parsed JSON object:
an association list from attribute names to values. -/
abbrev PyObj := List (String × JVal)

/-- Attribute read: first entry with the given key, as Python
`getattr` / dict lookup. -/
def getAttr (o : PyObj) (k : String) : Option JVal :=
  (o.find? (fun kv => kv.1 = k)).map Prod.snd

/-- `k in o` on a Python dict. -/
def hasKey (o : PyObj) (k : String) : Bool :=
  o.any (fun kv => kv.1 = k)

/-- Python `setattr o k v`: overwrite the entry for `k` if present,
otherwise add it. -/
def setAttr (o : PyObj) (k : String) (v : JVal) : PyObj :=
  if hasKey o k then o.map (fun kv => if kv.1 = k then (k, v) else kv)
  else o ++ [(k, v)]

/-- Python `d.pop(k, None)`: the dictionary without key `k`. -/
def popKey (o : PyObj) (k : String) : PyObj :=
  o.filter (fun kv => kv.1 ≠ k)

/-- An HTTP response payload: an error envelope `{"error": msg}`,
a serialized object, or a serialized list of objects. -/
inductive Resp where
  | err (msg : String)
  | obj (o : PyObj)
  | objList (l : List PyObj)
  deriving DecidableEq

/-- An HTTP response: status code and payload. -/
abbrev HResp := Nat × Resp

/-- `abort(404)` rendered by the `app.py` 404 handler:
`{"error": "Not found"}`. -/
def notFound : HResp := (404, Resp.err "Not found")

/-- Modelled from the spec: the storage engine's live entity sets,
one per domain class ("holds all domain objects keyed by class and
id").  Entities are attribute dictionaries because the PUT handlers
update them via `setattr` over arbitrary JSON keys. -/
structure StorageA where
  states : List PyObj
  cities : List PyObj
  places : List PyObj
  users : List PyObj
  reviews : List PyObj
  amenities : List PyObj
  deriving DecidableEq

/-- Modelled from the spec: `storage.get(cls, id)` — single lookup by
id within a class's entity set; absent is not an error. -/
def lookupObj (l : List PyObj) (i : String) : Option PyObj :=
  l.find? (fun o => getAttr o "id" = some (JVal.s i))

/-- Replace the entity with the given id by its updated version
(mutation of the stored object in Python). -/
def replaceObj (l : List PyObj) (i : String) (o' : PyObj) : List PyObj :=
  l.map (fun o => if getAttr o "id" = some (JVal.s i) then o' else o)

/-- Python truthiness test `not request.get_json()`: true when the
body is absent/unparsable (`None`) or an empty JSON object `{}`. -/
def jsonFalsy : Option PyObj → Bool
  | none => true
  | some d => d.isEmpty

/-- `ignore` list of `put_state` (states.py line 124). -/
def ignoreState : List String := ["id", "created_at", "updated_at"]

/-- `ignore` list of `put_city` (cities.py line 150). -/
def ignoreCity : List String := ["id", "state_id", "created_at", "updated_at"]

/-- `ignore` list of `put_place` (places.py line 157). -/
def ignorePlace : List String := ["id", "user_id", "city_id", "created_at", "updated_at"]

/-- `ignore` list of `put_user` (users.py line 139). -/
def ignoreUser : List String := ["id", "email", "created_at", "updated_at"]

/-- `ignore` list of `put_review` (places_reviews.py line 149). -/
def ignoreReview : List String := ["id", "user_id", "place_id", "created_at", "updated_at"]

/-- `ignore` list of `put_amenity` (amenities.py line 107). -/
def ignoreAmenity : List String := ["id", "created_at", "updated_at"]

/-- The PUT update loop shared by every handler:
`for key, value in data.items(): if key not in ignore: setattr(...)`. -/
def applyUpdates (ign : List String) (o : PyObj) (d : PyObj) : PyObj :=
  d.foldl (fun acc kv => if kv.1 ∈ ign then acc else setAttr acc kv.1 kv.2) o

/-- `put_state` (states.py lines 103-130): 404 on missing state, then
400 on falsy body, then update skipping `ignore`, save, 200. -/
def put_state (st : StorageA) (state_id : String) (body : Option PyObj) :
    HResp × StorageA :=
  match lookupObj st.states state_id with
  | none => (notFound, st)
  | some s =>
    if jsonFalsy body then ((400, Resp.err "Not a JSON"), st)
    else
      let s' := applyUpdates ignoreState s (body.getD [])
      ((200, Resp.obj s'), { st with states := replaceObj st.states state_id s' })

/-- `put_city` (cities.py lines 128-156): same shape as `put_state`
with the city `ignore` list. -/
def put_city (st : StorageA) (city_id : String) (body : Option PyObj) :
    HResp × StorageA :=
  match lookupObj st.cities city_id with
  | none => (notFound, st)
  | some c =>
    if jsonFalsy body then ((400, Resp.err "Not a JSON"), st)
    else
      let c' := applyUpdates ignoreCity c (body.getD [])
      ((200, Resp.obj c'), { st with cities := replaceObj st.cities city_id c' })

/-- `put_place` (places.py lines 134-162): same shape with the place
`ignore` list. -/
def put_place (st : StorageA) (place_id : String) (body : Option PyObj) :
    HResp × StorageA :=
  match lookupObj st.places place_id with
  | none => (notFound, st)
  | some p =>
    if jsonFalsy body then ((400, Resp.err "Not a JSON"), st)
    else
      let p' := applyUpdates ignorePlace p (body.getD [])
      ((200, Resp.obj p'), { st with places := replaceObj st.places place_id p' })

/-- `put_user` (users.py lines 115-146): same shape with the user
`ignore` list (which also contains `email`). -/
def put_user (st : StorageA) (user_id : String) (body : Option PyObj) :
    HResp × StorageA :=
  match lookupObj st.users user_id with
  | none => (notFound, st)
  | some u =>
    if jsonFalsy body then ((400, Resp.err "Not a JSON"), st)
    else
      let u' := applyUpdates ignoreUser u (body.getD [])
      ((200, Resp.obj u'), { st with users := replaceObj st.users user_id u' })

/-- `put_review` (places_reviews.py lines 131-156): same shape with
the review `ignore` list. -/
def put_review (st : StorageA) (review_id : String) (body : Option PyObj) :
    HResp × StorageA :=
  match lookupObj st.reviews review_id with
  | none => (notFound, st)
  | some r =>
    if jsonFalsy body then ((400, Resp.err "Not a JSON"), st)
    else
      let r' := applyUpdates ignoreReview r (body.getD [])
      ((200, Resp.obj r'), { st with reviews := replaceObj st.reviews review_id r' })

/-- `put_amenity` (amenities.py lines 87-117): unlike every other PUT
handler, the body check comes BEFORE the entity lookup. -/
def put_amenity (st : StorageA) (amenity_id : String) (body : Option PyObj) :
    HResp × StorageA :=
  if jsonFalsy body then ((400, Resp.err "Not a JSON"), st)
  else
    match lookupObj st.amenities amenity_id with
    | none => (notFound, st)
    | some a =>
      let a' := applyUpdates ignoreAmenity a (body.getD [])
      ((200, Resp.obj a'), { st with amenities := replaceObj st.amenities amenity_id a' })

/-- `State(**data)` then `save()` (modelled from the spec: the base
entity gains a fresh unique `id` and creation timestamps). -/
def newEntity (d : PyObj) (freshId now : String) : PyObj :=
  setAttr (setAttr (setAttr d "id" (JVal.s freshId)) "created_at" (JVal.s now))
    "updated_at" (JVal.s now)

/-- `post_state` (states.py lines 79-100): 400 "Not a JSON" on a falsy
body — note that the empty JSON object `{}` is falsy in Python, so it
takes this branch, not the "Missing name" one. -/
def post_state (st : StorageA) (body : Option PyObj) (freshId now : String) :
    HResp × StorageA :=
  if jsonFalsy body then ((400, Resp.err "Not a JSON"), st)
  else
    let d := body.getD []
    if ¬hasKey d "name" then ((400, Resp.err "Missing name"), st)
    else
      let inst := newEntity d freshId now
      ((201, Resp.obj inst), { st with states := st.states ++ [inst] })

/-- `storage.get(User, data['user_id'])`: a non-string id value finds
no user. -/
def userForVal (st : StorageA) (v : JVal) : Option PyObj :=
  match v with
  | JVal.s uid => lookupObj st.users uid
  | _ => none

/-- `post_place` (places.py lines 95-131): 404 on missing city before
anything else, then JSON and field checks, then creation. -/
def post_place (st : StorageA) (city_id : String) (body : Option PyObj)
    (freshId now : String) : HResp × StorageA :=
  match lookupObj st.cities city_id with
  | none => (notFound, st)
  | some _ =>
    if jsonFalsy body then ((400, Resp.err "Not a JSON"), st)
    else
      let d := body.getD []
      if ¬hasKey d "user_id" then ((400, Resp.err "Missing user_id"), st)
      else
        match userForVal st ((getAttr d "user_id").getD JVal.null) with
        | none => (notFound, st)
        | some _ =>
          if ¬hasKey d "name" then ((400, Resp.err "Missing name"), st)
          else
            let d' := setAttr d "city_id" (JVal.s city_id)
            let inst := newEntity d' freshId now
            ((201, Resp.obj inst), { st with places := st.places ++ [inst] })

/-! ## Structured domain model

Modelled from the spec (§3): the `models` package is not among the
sources, so the six entity classes and their relations are given as
records following the spec's field lists.  `latitude`/`longitude` are
floating point in the original and are modelled as integers; no claim
touches them. -/

/-- Modelled from the spec: `State: name`, plus base-entity fields. -/
structure State where
  id : String
  created_at : String
  updated_at : String
  name : String
  deriving DecidableEq

/-- Modelled from the spec: `City: name, state_id`. -/
structure City where
  id : String
  created_at : String
  updated_at : String
  name : String
  state_id : String
  deriving DecidableEq

/-- Modelled from the spec: `Amenity: name`. -/
structure Amenity where
  id : String
  created_at : String
  updated_at : String
  name : String
  deriving DecidableEq

/-- Modelled from the spec: `Place` scalar fields plus the
many-to-many association with Amenity, carried as a list of amenity
ids (the file-backend representation; the database backend's join
relation resolves to the same association). -/
structure Place where
  id : String
  created_at : String
  updated_at : String
  name : String
  city_id : String
  user_id : String
  description : String
  number_rooms : Int
  number_bathrooms : Int
  max_guest : Int
  price_by_night : Int
  latitude : Int
  longitude : Int
  amenity_ids : List String
  deriving DecidableEq

/-- Modelled from the spec: `User: email, password, first_name,
last_name`. -/
structure User where
  id : String
  created_at : String
  updated_at : String
  email : String
  password : String
  first_name : String
  last_name : String
  deriving DecidableEq

/-- Modelled from the spec: `Review: text, user_id, place_id`. -/
structure Review where
  id : String
  created_at : String
  updated_at : String
  text : String
  user_id : String
  place_id : String
  deriving DecidableEq

/-- Modelled from the spec: the storage engine's live entity sets in
their structured form. -/
structure Storage where
  states : List State
  cities : List City
  places : List Place
  amenities : List Amenity
  users : List User
  reviews : List Review
  deriving DecidableEq

/-- Modelled from the spec: `storage.get(State, id)`. -/
def Storage.getState (st : Storage) (i : String) : Option State :=
  st.states.find? (fun s => s.id = i)

/-- Modelled from the spec: `storage.get(City, id)`. -/
def Storage.getCity (st : Storage) (i : String) : Option City :=
  st.cities.find? (fun c => c.id = i)

/-- Modelled from the spec: `storage.get(Place, id)`. -/
def Storage.getPlace (st : Storage) (i : String) : Option Place :=
  st.places.find? (fun p => p.id = i)

/-- Modelled from the spec: `storage.get(Amenity, id)`. -/
def Storage.getAmenity (st : Storage) (i : String) : Option Amenity :=
  st.amenities.find? (fun a => a.id = i)

/-- Modelled from the spec: `state.cities` — the back-reference from a
State to the Cities whose `state_id` names it. -/
def State.citiesOf (st : Storage) (s : State) : List City :=
  st.cities.filter (fun c => c.state_id = s.id)

/-- Modelled from the spec: `city.places`. -/
def City.placesOf (st : Storage) (c : City) : List Place :=
  st.places.filter (fun p => p.city_id = c.id)

/-- Modelled from the spec: `place.amenities` — the Amenity objects of
the place's association. -/
def Place.amenitiesOf (st : Storage) (p : Place) : List Amenity :=
  p.amenity_ids.filterMap st.getAmenity

/-- Modelled from the spec: `Amenity.to_dict` — all attributes plus
the `__class__` discriminator. -/
def Amenity.to_dict (a : Amenity) : PyObj :=
  [("id", JVal.s a.id), ("created_at", JVal.s a.created_at),
   ("updated_at", JVal.s a.updated_at), ("name", JVal.s a.name),
   ("__class__", JVal.s "Amenity")]

/-- Modelled from the spec: `Place.to_dict` — all attributes plus the
discriminator; the amenity association serializes under the
`amenities` key (the key `places_search` pops before responding). -/
def Place.to_dict (p : Place) : PyObj :=
  [("id", JVal.s p.id), ("created_at", JVal.s p.created_at),
   ("updated_at", JVal.s p.updated_at), ("name", JVal.s p.name),
   ("city_id", JVal.s p.city_id), ("user_id", JVal.s p.user_id),
   ("description", JVal.s p.description), ("number_rooms", JVal.n p.number_rooms),
   ("number_bathrooms", JVal.n p.number_bathrooms), ("max_guest", JVal.n p.max_guest),
   ("price_by_night", JVal.n p.price_by_night), ("latitude", JVal.n p.latitude),
   ("longitude", JVal.n p.longitude), ("amenities", JVal.strs p.amenity_ids),
   ("__class__", JVal.s "Place")]

/-! ## Place search (places.py lines 165-234) -/

/-- The parsed JSON body of a `POST /places_search` request: the three
optional list fields the handler reads, plus the number of other keys
in the object (they only influence `len(data)`). -/
structure SearchData where
  states : Option (List String)
  cities : Option (List String)
  amenities : Option (List String)
  extra : Nat
  deriving DecidableEq

/-- `len(data)` on the request dictionary. -/
def SearchData.len (d : SearchData) : Nat :=
  (if d.states.isSome then 1 else 0) + (if d.cities.isSome then 1 else 0) +
    (if d.amenities.isSome then 1 else 0) + d.extra

/-- Python truthiness of `data.get(field)`: falsy when the key is
absent (`None`) or its list is empty. -/
def listFalsy : Option (List String) → Bool
  | none => true
  | some l => l.isEmpty

/-- The `if states:` phase (places.py lines 203-210): resolve each
state id, and for each city of each resolved state append every place
— unconditionally, with no membership check.  (The source's
`if city:` guard is vacuously true for objects of a relationship.) -/
def statePhase (st : Storage) (ids : List String) : List Place :=
  (ids.map st.getState).foldl
    (fun acc os =>
      match os with
      | none => acc
      | some s => (State.citiesOf st s).foldl (fun a c => a ++ City.placesOf st c) acc)
    []

/-- The `if cities:` phase (places.py lines 212-218): resolve each
city id and append each of its places only if not already present in
the growing candidate list. -/
def cityPhase (st : Storage) (ids : List String) (acc0 : List Place) : List Place :=
  (ids.map st.getCity).foldl
    (fun acc oc =>
      match oc with
      | none => acc
      | some c => (City.placesOf st c).foldl
          (fun a p => if p ∈ a then a else a ++ [p]) acc)
    acc0

/-- The candidate list after the state and city phases, exactly as the
handler builds `list_places` before the amenity filter. -/
def searchCandidates (st : Storage) (d : SearchData) : List Place :=
  let l1 := if listFalsy d.states then [] else statePhase st (d.states.getD [])
  if listFalsy d.cities then l1 else cityPhase st (d.cities.getD []) l1

/-- The retention test of the amenity filter (places.py lines 224-226):
`all([am in place.amenities for am in amenities_obj])`, where a `None`
produced by an unresolved amenity id is a member of no amenity list. -/
def amenityKeep (st : Storage) (objs : List (Option Amenity)) (p : Place) : Bool :=
  objs.all (fun oa =>
    match oa with
    | none => false
    | some a => decide (a ∈ Place.amenitiesOf st p))

/-- `places_search` (places.py lines 165-234). -/
def places_search (st : Storage) (body : Option SearchData) : HResp :=
  match body with
  | none => (400, Resp.err "Not a JSON")
  | some d =>
    if d.len = 0 ∨ (listFalsy d.states ∧ listFalsy d.cities ∧ listFalsy d.amenities) then
      (200, Resp.objList (st.places.map Place.to_dict))
    else
      let lp := searchCandidates st d
      let lp' :=
        if listFalsy d.amenities then lp
        else
          let base := if lp.isEmpty then st.places else lp
          base.filter (amenityKeep st ((d.amenities.getD []).map st.getAmenity))
      (200, Resp.objList (lp'.map (fun p => popKey p.to_dict "amenities")))

/-! ## Stats endpoint (index.py lines 28-45) -/

/-- Modelled from the spec: `all(Amenity)` — the mapping from
`"ClassName.id"` to entity, restricted to one class. -/
def Storage.allAmenities (st : Storage) : List (String × Amenity) :=
  st.amenities.map (fun a => ("Amenity." ++ a.id, a))

/-- Modelled from the spec: `all(City)`. -/
def Storage.allCities (st : Storage) : List (String × City) :=
  st.cities.map (fun c => ("City." ++ c.id, c))

/-- Modelled from the spec: `all(Place)`. -/
def Storage.allPlaces (st : Storage) : List (String × Place) :=
  st.places.map (fun p => ("Place." ++ p.id, p))

/-- Modelled from the spec: `all(Review)`. -/
def Storage.allReviews (st : Storage) : List (String × Review) :=
  st.reviews.map (fun r => ("Review." ++ r.id, r))

/-- Modelled from the spec: `all(State)`. -/
def Storage.allStates (st : Storage) : List (String × State) :=
  st.states.map (fun s => ("State." ++ s.id, s))

/-- Modelled from the spec: `all(User)`. -/
def Storage.allUsers (st : Storage) : List (String × User) :=
  st.users.map (fun u => ("User." ++ u.id, u))

/-- Modelled from the spec: `count(cls)` — "cardinality of
`all(cls)`" — for each of the six classes, in the order of the
`classes` list of index.py line 40. -/
def Storage.countOf (st : Storage) : String → Nat
  | "Amenity" => st.allAmenities.length
  | "City" => st.allCities.length
  | "Place" => st.allPlaces.length
  | "Review" => st.allReviews.length
  | "State" => st.allStates.length
  | "User" => st.allUsers.length
  | _ => 0

/-- `number_objects` (index.py lines 28-45): one count per class,
keyed by the parallel `names` list. -/
def number_objects (st : Storage) : HResp :=
  (200, Resp.obj
    [("amenities", JVal.n (st.countOf "Amenity")),
     ("cities", JVal.n (st.countOf "City")),
     ("places", JVal.n (st.countOf "Place")),
     ("reviews", JVal.n (st.countOf "Review")),
     ("states", JVal.n (st.countOf "State")),
     ("users", JVal.n (st.countOf "User"))])

/-! ## Place-amenity link endpoints (places_amenities.py)

The module imports only `Amenity` from the models package (line 17);
the name `Place` is referenced by every handler but bound nowhere in
the module, so evaluating it raises `NameError` at request time. -/

/-- A Python exception escaping a handler (rendered as a 500 by the
framework). -/
inductive PyError where
  | nameError (missing : String)
  | attributeError
  deriving DecidableEq

/-- The names bound at module level in places_amenities.py: its
imports (lines 17-22) and its own three functions.  `Place` is not
among them. -/
def placesAmenitiesGlobals : List String :=
  ["Amenity", "storage", "app_views", "environ",
   "abort", "jsonify", "make_response", "request", "swag_from",
   "get_place_amenities", "delete_place_amenity", "post_place_amenity"]

/-- Python name resolution inside places_amenities.py: a name outside
the module's globals raises `NameError`. -/
def resolveName (n : String) : Except PyError Unit :=
  if n ∈ placesAmenitiesGlobals then Except.ok () else Except.error (PyError.nameError n)

/-- `get_place_amenities` (places_amenities.py lines 25-51).  Its
first statement `storage.get(Place, place_id)` evaluates the name
`Place`. `db_storage` is the `HBNB_TYPE_STORAGE == "db"` test. -/
def get_place_amenities (st : Storage) (db_storage : Bool) (place_id : String) :
    Except PyError HResp := do
  let _ ← resolveName "Place"
  match st.getPlace place_id with
  | none => pure notFound
  | some p =>
    if db_storage then
      pure (200, Resp.objList ((Place.amenitiesOf st p).map Amenity.to_dict))
    else do
      let ds ← p.amenity_ids.mapM (fun aid =>
        match st.getAmenity aid with
        | none => Except.error PyError.attributeError
        | some a => Except.ok a.to_dict)
      pure (200, Resp.objList ds)

/-- `post_place_amenity` (places_amenities.py lines 91-127).  Its
first statement also evaluates the unbound name `Place`. -/
def post_place_amenity (st : Storage) (db_storage : Bool)
    (place_id amenity_id : String) : Except PyError (HResp × Storage) := do
  let _ ← resolveName "Place"
  match st.getPlace place_id with
  | none => pure (notFound, st)
  | some p =>
    match st.getAmenity amenity_id with
    | none => pure (notFound, st)
    | some a =>
      let linked :=
        if db_storage then a ∈ Place.amenitiesOf st p
        else amenity_id ∈ p.amenity_ids
      if linked then pure ((200, Resp.obj a.to_dict), st)
      else
        let p' := { p with amenity_ids := p.amenity_ids ++ [amenity_id] }
        let st' := { st with places := st.places.map (fun q => if q.id = p.id then p' else q) }
        pure ((201, Resp.obj a.to_dict), st')

/-! ## Spec-side candidate construction (§4.2 of the spec)

Written from the specification's words, to be compared with
`searchCandidates`, which is translated from the handler's code. -/

/-- §4.2: "For each given state id, resolve to a State; for each of
its Cities, for each of that City's Places, add the place" — with no
membership check, so phrased as a flat concatenation. -/
def statePhaseSpec (st : Storage) (ids : List String) : List Place :=
  (ids.filterMap st.getState).flatMap
    (fun s => (State.citiesOf st s).flatMap (City.placesOf st))

/-- §4.2 / §6 edge case: "city-phase appends only if absent". -/
def insertIfAbsent (a : List Place) (p : Place) : List Place :=
  if p ∈ a then a else a ++ [p]

/-- §4.2: "For each given city id, resolve to a City; for each of its
Places, add the place only if not already present". -/
def cityPhaseSpec (st : Storage) (ids : List String) (acc : List Place) : List Place :=
  ((ids.filterMap st.getCity).flatMap (City.placesOf st)).foldl insertIfAbsent acc

/-! ## Lemmas about the attribute-dictionary operations -/

theorem getAttr_map_set_of_hasKey {o : PyObj} {k : String} {v : JVal}
    (h : hasKey o k = true) :
    getAttr (o.map (fun kv => if kv.1 = k then (k, v) else kv)) k = some v := by
  induction o with
  | nil => simp [hasKey] at h
  | cons hd tl ih =>
    by_cases hk : hd.1 = k
    · simp [getAttr, List.find?, hk]
    · have h' : hasKey tl k = true := by
        simpa [hasKey, hk] using h
      simpa [getAttr, List.find?, hk] using ih h'

theorem find?_eq_none_of_not_hasKey {o : PyObj} {k : String}
    (h : hasKey o k = false) :
    o.find? (fun kv => kv.1 = k) = none := by
  rw [List.find?_eq_none]
  intro a ha
  rw [hasKey] at h
  have := (List.any_eq_false.mp h) a ha
  simpa using this

theorem getAttr_setAttr_same (o : PyObj) (k : String) (v : JVal) :
    getAttr (setAttr o k v) k = some v := by
  unfold setAttr
  by_cases h : hasKey o k = true
  · simpa [h] using getAttr_map_set_of_hasKey h
  · have h' : hasKey o k = false := by simpa using h
    have hn := find?_eq_none_of_not_hasKey h'
    simp [h', getAttr, List.find?_append, hn, List.find?]

theorem getAttr_map_set_ne {k k' : String} {v : JVal} (o : PyObj) (h : k' ≠ k) :
    getAttr (o.map (fun kv => if kv.1 = k' then (k', v) else kv)) k = getAttr o k := by
  have h2 : ¬ (k = k') := fun e => h e.symm
  induction o with
  | nil => rfl
  | cons hd tl ih =>
    rw [List.map_cons]
    by_cases hk : hd.1 = k'
    · rw [if_pos hk]
      have hne : ¬ hd.1 = k := by rw [hk]; exact h
      simpa [getAttr, List.find?, h, hne] using ih
    · rw [if_neg hk]
      by_cases hk2 : hd.1 = k
      · simp [getAttr, List.find?, hk2]
      · simpa [getAttr, List.find?, hk2] using ih

theorem getAttr_setAttr_ne {k k' : String} (o : PyObj) (v : JVal) (h : k' ≠ k) :
    getAttr (setAttr o k' v) k = getAttr o k := by
  unfold setAttr
  by_cases hh : hasKey o k' = true
  · simpa [hh] using getAttr_map_set_ne o h
  · have h' : hasKey o k' = false := by simpa using hh
    simp only [hh, if_false]
    cases hfind : o.find? (fun kv => decide (kv.1 = k)) with
    | some kv => simp [getAttr, List.find?_append, hfind]
    | none =>
      have hne : ¬ ((k', v).1 = k) := h
      simp [getAttr, List.find?_append, hfind, List.find?, hne]

theorem getAttr_applyUpdates_no_key {d : PyObj} {k : String} (L : List String)
    (o : PyObj) (h : ∀ kv ∈ d, kv.1 ≠ k) :
    getAttr (applyUpdates L o d) k = getAttr o k := by
  induction d generalizing o with
  | nil => rfl
  | cons kv d' ih =>
    rw [applyUpdates, List.foldl_cons]
    have hk : kv.1 ≠ k := h kv (List.mem_cons_self kv d')
    have htl : ∀ kv' ∈ d', kv'.1 ≠ k := fun kv' h' => h kv' (List.mem_cons_of_mem kv h')
    by_cases hL : kv.1 ∈ L
    · rw [if_pos hL]
      exact ih o htl
    · rw [if_neg hL]
      rw [show List.foldl (fun acc kv => if kv.1 ∈ L then acc else setAttr acc kv.1 kv.2)
            (setAttr o kv.1 kv.2) d' = applyUpdates L (setAttr o kv.1 kv.2) d' from rfl]
      rw [ih (setAttr o kv.1 kv.2) htl]
      exact getAttr_setAttr_ne o kv.2 hk

theorem getAttr_applyUpdates_ignored {k : String} (L : List String) (o d : PyObj)
    (hk : k ∈ L) :
    getAttr (applyUpdates L o d) k = getAttr o k := by
  induction d generalizing o with
  | nil => rfl
  | cons kv d' ih =>
    rw [applyUpdates, List.foldl_cons]
    by_cases hL : kv.1 ∈ L
    · rw [if_pos hL]
      exact ih o
    · rw [if_neg hL]
      have hne : kv.1 ≠ k := fun e => hL (e ▸ hk)
      rw [show List.foldl (fun acc kv => if kv.1 ∈ L then acc else setAttr acc kv.1 kv.2)
            (setAttr o kv.1 kv.2) d' = applyUpdates L (setAttr o kv.1 kv.2) d' from rfl]
      rw [ih (setAttr o kv.1 kv.2)]
      exact getAttr_setAttr_ne o kv.2 hne

theorem applyUpdates_cons (L : List String) (o : PyObj) (kv : String × JVal)
    (d' : PyObj) :
    applyUpdates L o (kv :: d') =
      applyUpdates L (if kv.1 ∈ L then o else setAttr o kv.1 kv.2) d' := rfl

theorem getAttr_applyUpdates_updated {d : PyObj} {k : String} {v : JVal}
    (L : List String) (o : PyObj) (hnd : (d.map Prod.fst).Nodup)
    (hmem : (k, v) ∈ d) (hk : k ∉ L) :
    getAttr (applyUpdates L o d) k = some v := by
  induction d generalizing o with
  | nil => cases hmem
  | cons kv d' ih =>
    rw [List.map_cons, List.nodup_cons] at hnd
    rw [applyUpdates_cons]
    cases List.mem_cons.mp hmem with
    | inl hh =>
      have hkv1 : kv.1 = k := by rw [← hh]
      have hkv2 : kv.2 = v := by rw [← hh]
      have hkL : kv.1 ∉ L := by rw [hkv1]; exact hk
      rw [if_neg hkL]
      have hno : ∀ kv' ∈ d', kv'.1 ≠ k := by
        intro kv' h' he
        exact hnd.1 (by rw [← hkv1] at he; exact he ▸ List.mem_map_of_mem Prod.fst h')
      rw [getAttr_applyUpdates_no_key L _ hno, hkv1, hkv2]
      exact getAttr_setAttr_same o k v
    | inr hh =>
      by_cases hL : kv.1 ∈ L
      · rw [if_pos hL]
        exact ih o hnd.2 hh
      · rw [if_neg hL]
        exact ih (setAttr o kv.1 kv.2) hnd.2 hh

theorem lookupObj_replaceObj {l : List PyObj} {i : String} {o : PyObj}
    (o' : PyObj) (ho : lookupObj l i = some o)
    (hid : getAttr o' "id" = getAttr o "id") :
    lookupObj (replaceObj l i o') i = some o' := by
  induction l with
  | nil => cases ho
  | cons hd tl ih =>
    by_cases hhd : getAttr hd "id" = some (JVal.s i)
    · have hho : o = hd := by
        rw [lookupObj, List.find?_cons_of_pos _ (by simpa using hhd)] at ho
        exact (Option.some.inj ho).symm
      have hid' : getAttr o' "id" = some (JVal.s i) := by
        rw [hid, hho]; exact hhd
      rw [replaceObj, List.map_cons, if_pos hhd, lookupObj,
        List.find?_cons_of_pos _ (by simpa using hid')]
    · rw [lookupObj, List.find?_cons_of_neg _ (by simpa using hhd)] at ho
      rw [replaceObj, List.map_cons, if_neg hhd, lookupObj,
        List.find?_cons_of_neg _ (by simpa using hhd)]
      exact ih ho

theorem jsonFalsy_some_of_ne {d : PyObj} (h : d ≠ []) : jsonFalsy (some d) = false := by
  rw [jsonFalsy]
  exact List.isEmpty_eq_false.mpr h

/-! ## Lemmas about the place-search phases -/

theorem foldl_append_eq_flatMap {α β : Type} (f : α → List β) (cs : List α) :
    ∀ acc : List β, cs.foldl (fun a c => a ++ f c) acc = acc ++ cs.flatMap f := by
  induction cs with
  | nil => intro acc; simp
  | cons c cs' ih =>
    intro acc
    rw [List.foldl_cons, ih, List.flatMap_cons, List.append_assoc]

theorem statePhase_eq_spec (st : Storage) (ids : List String) :
    statePhase st ids = statePhaseSpec st ids := by
  have key : ∀ acc : List Place,
      (ids.map st.getState).foldl
        (fun acc os =>
          match os with
          | none => acc
          | some s => (State.citiesOf st s).foldl (fun a c => a ++ City.placesOf st c) acc)
        acc = acc ++ statePhaseSpec st ids := by
    induction ids with
    | nil => intro acc; simp [statePhaseSpec]
    | cons i rest ih =>
      intro acc
      rw [List.map_cons, List.foldl_cons]
      simp only [statePhaseSpec, List.filterMap_cons]
      cases hg : st.getState i with
      | none =>
        show (List.map st.getState rest).foldl
            (fun acc os =>
              match os with
              | none => acc
              | some s => (State.citiesOf st s).foldl (fun a c => a ++ City.placesOf st c) acc)
            acc =
          acc ++ ((List.filterMap st.getState rest).flatMap
            fun s => (State.citiesOf st s).flatMap (City.placesOf st))
        have ih' := ih acc
        simp only [statePhaseSpec] at ih'
        exact ih'
      | some s =>
        show (List.map st.getState rest).foldl
            (fun acc os =>
              match os with
              | none => acc
              | some s => (State.citiesOf st s).foldl (fun a c => a ++ City.placesOf st c) acc)
            ((State.citiesOf st s).foldl (fun a c => a ++ City.placesOf st c) acc) =
          acc ++ ((s :: List.filterMap st.getState rest).flatMap
            fun s => (State.citiesOf st s).flatMap (City.placesOf st))
        rw [List.flatMap_cons]
        have ih' := ih ((State.citiesOf st s).foldl (fun a c => a ++ City.placesOf st c) acc)
        simp only [statePhaseSpec] at ih'
        rw [ih', foldl_append_eq_flatMap, List.append_assoc]
  rw [statePhase, key []]
  rfl

theorem cityPhase_eq_spec (st : Storage) (ids : List String) :
    ∀ acc : List Place, cityPhase st ids acc = cityPhaseSpec st ids acc := by
  induction ids with
  | nil => intro acc; simp [cityPhase, cityPhaseSpec]
  | cons i rest ih =>
    intro acc
    rw [cityPhase, List.map_cons, List.foldl_cons, cityPhaseSpec, List.filterMap_cons]
    cases hg : st.getCity i with
    | none =>
      rw [show ((List.map st.getCity rest).foldl
          (fun acc oc =>
            match oc with
            | none => acc
            | some c => (City.placesOf st c).foldl
                (fun a p => if p ∈ a then a else a ++ [p]) acc) acc) =
          cityPhase st rest acc from rfl]
      rw [ih acc]
      rfl
    | some c =>
      rw [show ((List.map st.getCity rest).foldl
          (fun acc oc =>
            match oc with
            | none => acc
            | some c => (City.placesOf st c).foldl
                (fun a p => if p ∈ a then a else a ++ [p]) acc)
          ((City.placesOf st c).foldl (fun a p => if p ∈ a then a else a ++ [p]) acc)) =
          cityPhase st rest
            ((City.placesOf st c).foldl (fun a p => if p ∈ a then a else a ++ [p]) acc)
        from rfl]
      rw [ih, cityPhaseSpec, List.flatMap_cons, List.foldl_append]
      rfl

theorem find?_id_eq {l : List Amenity} {i : String} {a : Amenity}
    (h : l.find? (fun x => x.id = i) = some a) : a.id = i := by
  have := List.find?_some h
  simpa using this

theorem mem_amenitiesOf_iff {st : Storage} {aid : String} {a : Amenity}
    (p : Place) (hga : st.getAmenity aid = some a) :
    (a ∈ Place.amenitiesOf st p) ↔ aid ∈ p.amenity_ids := by
  rw [Place.amenitiesOf, List.mem_filterMap]
  constructor
  · rintro ⟨i, hi, hfi⟩
    have h1 : a.id = i := find?_id_eq hfi
    have h2 : a.id = aid := find?_id_eq hga
    rw [← h1, h2] at hi
    exact hi
  · intro hi
    exact ⟨aid, hi, hga⟩

theorem amenityKeep_resolved {st : Storage} {req : List String}
    (p : Place) (hres : ∀ aid ∈ req, (st.getAmenity aid).isSome) :
    amenityKeep st (req.map st.getAmenity) p =
      req.all (fun aid => decide (aid ∈ p.amenity_ids)) := by
  induction req with
  | nil => rfl
  | cons aid rest ih =>
    rw [List.map_cons, amenityKeep, List.all_cons, List.all_cons]
    have h1 := hres aid (List.mem_cons_self aid rest)
    cases hg : st.getAmenity aid with
    | none => rw [hg] at h1; cases h1
    | some a =>
      have heq : decide (a ∈ Place.amenitiesOf st p) = decide (aid ∈ p.amenity_ids) := by
        rcases hm : decide (aid ∈ p.amenity_ids) with _ | _
        · exact decide_eq_false (fun hmem =>
            (of_decide_eq_false hm) ((mem_amenitiesOf_iff p hg).mp hmem))
        · exact decide_eq_true ((mem_amenitiesOf_iff p hg).mpr (of_decide_eq_true hm))
      have ih' := ih (fun x hx => hres x (List.mem_cons_of_mem aid hx))
      rw [amenityKeep] at ih'
      rw [ih']
      show (decide (a ∈ Place.amenitiesOf st p) && _) = _
      rw [heq]

theorem amenityKeep_unresolved {st : Storage} {req : List String} {aid : String}
    (p : Place) (hmem : aid ∈ req) (hbad : st.getAmenity aid = none) :
    amenityKeep st (req.map st.getAmenity) p = false := by
  rcases h : amenityKeep st (req.map st.getAmenity) p with _ | _
  · rfl
  · exfalso
    rw [amenityKeep, List.all_eq_true] at h
    have := h (st.getAmenity aid) (List.mem_map_of_mem st.getAmenity hmem)
    rw [hbad] at this
    cases this

theorem searchLen_pos {d : SearchData} {req : List String}
    (h : d.amenities = some req) : d.len ≠ 0 := by
  rw [SearchData.len, h]
  simp only [Option.isSome_some, if_true]
  omega

theorem popKey_no_key (o : PyObj) (k : String) : ∀ kv ∈ popKey o k, kv.1 ≠ k := by
  intro kv hkv
  rw [popKey] at hkv
  have := (List.mem_filter.mp hkv).2
  simpa using this

/-! ## Example states used by witnesses -/

/-- An empty attribute-dictionary storage. -/
def exampleStorageA : StorageA := ⟨[], [], [], [], [], []⟩

/-- A concrete place for witness states. -/
def examplePlace (i cid : String) (ams : List String) : Place :=
  { id := i, created_at := "t0", updated_at := "t0", name := "P" ++ i,
    city_id := cid, user_id := "u1", description := "", number_rooms := 1,
    number_bathrooms := 1, max_guest := 2, price_by_night := 10,
    latitude := 0, longitude := 0, amenity_ids := ams }

/-- A concrete structured storage: one state with one city holding
three places; two amenities, of which only `wifi` is linked (to `p1`
and `p3`). -/
def exampleStorage : Storage :=
  { states := [⟨"s1", "t0", "t0", "S"⟩],
    cities := [⟨"c1", "t0", "t0", "C", "s1"⟩],
    places := [examplePlace "p1" "c1" ["wifi"], examplePlace "p2" "c1" [],
               examplePlace "p3" "c1" ["wifi", "pool"]],
    amenities := [⟨"wifi", "t0", "t0", "WiFi"⟩, ⟨"pool", "t0", "t0", "Pool"⟩],
    users := [], reviews := [] }

/-- A search body with duplicated state ids and a city id, no
amenities. -/
def exampleSearchBody : SearchData := ⟨some ["s1", "s1"], some ["c1"], none, 0⟩

/-! ## Claim theorems -/

/-- C1: the place-amenity link endpoints cannot return their
documented 200/201 responses for any existing place and amenity:
every call of `get_place_amenities` and `post_place_amenity` raises
`NameError` because the module never imports `Place`.  This theorem
evaluates the embedded handlers and shows the unconditional error. -/
theorem place_amenities_name_error (st : Storage) (db_storage : Bool)
    (place_id amenity_id : String) :
    get_place_amenities st db_storage place_id =
      Except.error (PyError.nameError "Place") ∧
    post_place_amenity st db_storage place_id amenity_id =
      Except.error (PyError.nameError "Place") :=
  ⟨rfl, rfl⟩

/-- C5: evaluating `post_state` at the empty JSON object `{}` — the
body is valid JSON lacking `name`, yet the handler's truthiness check
classifies it as "Not a JSON", contradicting the claimed
"Missing name" response. -/
theorem post_state_empty_object (st : StorageA) (freshId now : String) :
    post_state st (some []) freshId now = ((400, Resp.err "Not a JSON"), st) :=
  rfl

/-- C7: `POST /cities/<city_id>/places` with a nonexistent city
returns 404 and leaves the storage state unchanged: no Place entity is
created. -/
theorem post_place_missing_city (st : StorageA) (city_id : String)
    (body : Option PyObj) (freshId now : String)
    (h : lookupObj st.cities city_id = none) :
    post_place st city_id body freshId now = (notFound, st) := by
  rw [post_place, h]

/-- Witness for C7 at a concrete input. -/
theorem post_place_missing_city_witness :
    post_place exampleStorageA "c404"
      (some [("user_id", JVal.s "u1"), ("name", JVal.s "home")]) "p1" "t0" =
      (notFound, exampleStorageA) :=
  post_place_missing_city exampleStorageA "c404"
    (some [("user_id", JVal.s "u1"), ("name", JVal.s "home")]) "p1" "t0" rfl

/-- C8: `GET /stats` returns 200 with exactly the keys
`amenities, cities, places, reviews, states, users`, each valued at
the storage count of its class, and each class's count equals the
number of entries of `all(cls)`. -/
theorem stats_counts_exact (st : Storage) :
    number_objects st =
      (200, Resp.obj
        [("amenities", JVal.n st.allAmenities.length),
         ("cities", JVal.n st.allCities.length),
         ("places", JVal.n st.allPlaces.length),
         ("reviews", JVal.n st.allReviews.length),
         ("states", JVal.n st.allStates.length),
         ("users", JVal.n st.allUsers.length)]) ∧
    (st.countOf "Amenity" = st.allAmenities.length ∧
     st.countOf "City" = st.allCities.length ∧
     st.countOf "Place" = st.allPlaces.length ∧
     st.countOf "Review" = st.allReviews.length ∧
     st.countOf "State" = st.allStates.length ∧
     st.countOf "User" = st.allUsers.length) :=
  ⟨rfl, rfl, rfl, rfl, rfl, rfl, rfl⟩

/-- C9: `put_amenity` checks the body before the entity lookup, so a
falsy body yields 400 "Not a JSON" even when the amenity does not
exist; the PUT handlers of the other five resources return 404 for a
missing entity regardless of the body. -/
theorem put_amenity_validates_body_first (st : StorageA)
    (amenity_id state_id city_id place_id user_id review_id : String)
    (b bs bc bp bu br : Option PyObj) :
    (jsonFalsy b = true → lookupObj st.amenities amenity_id = none →
      (put_amenity st amenity_id b).1 = (400, Resp.err "Not a JSON")) ∧
    (lookupObj st.states state_id = none → (put_state st state_id bs).1 = notFound) ∧
    (lookupObj st.cities city_id = none → (put_city st city_id bc).1 = notFound) ∧
    (lookupObj st.places place_id = none → (put_place st place_id bp).1 = notFound) ∧
    (lookupObj st.users user_id = none → (put_user st user_id bu).1 = notFound) ∧
    (lookupObj st.reviews review_id = none → (put_review st review_id br).1 = notFound) := by
  refine ⟨?_, ?_, ?_, ?_, ?_, ?_⟩
  · intro hb _
    rw [put_amenity, hb]
    rfl
  · intro h
    rw [put_state, h]
  · intro h
    rw [put_city, h]
  · intro h
    rw [put_place, h]
  · intro h
    rw [put_user, h]
  · intro h
    rw [put_review, h]

/-- Witness for C9 at concrete inputs: absent body, empty storage. -/
theorem put_amenity_validates_body_first_witness :
    (put_amenity exampleStorageA "a1" none).1 = (400, Resp.err "Not a JSON") ∧
    (put_state exampleStorageA "s1" none).1 = notFound ∧
    (put_city exampleStorageA "c1" none).1 = notFound ∧
    (put_place exampleStorageA "p1" none).1 = notFound ∧
    (put_user exampleStorageA "u1" none).1 = notFound ∧
    (put_review exampleStorageA "r1" none).1 = notFound := by
  have h := put_amenity_validates_body_first exampleStorageA
    "a1" "s1" "c1" "p1" "u1" "r1" none none none none none none
  exact ⟨h.1 rfl rfl, h.2.1 rfl, h.2.2.1 rfl, h.2.2.2.1 rfl,
    h.2.2.2.2.1 rfl, h.2.2.2.2.2 rfl⟩

/-- C2: a `places_search` body whose `states`, `cities` and
`amenities` fields are each empty or absent (the empty object `{}`
included) yields 200 with a serialization of every place in
storage. -/
theorem places_search_empty_filter (st : Storage) (d : SearchData)
    (h1 : listFalsy d.states = true) (h2 : listFalsy d.cities = true)
    (h3 : listFalsy d.amenities = true) :
    places_search st (some d) = (200, Resp.objList (st.places.map Place.to_dict)) := by
  rw [places_search]
  rw [if_pos (Or.inr ⟨h1, h2, h3⟩)]

/-- Witness for C2: three places, empty `{}` body, array of
length 3. -/
theorem places_search_empty_filter_witness :
    places_search exampleStorage (some ⟨none, none, none, 0⟩) =
      (200, Resp.objList (exampleStorage.places.map Place.to_dict)) ∧
    (exampleStorage.places.map Place.to_dict).length = 3 :=
  ⟨places_search_empty_filter exampleStorage ⟨none, none, none, 0⟩ rfl rfl rfl, rfl⟩

/-- C10: a `places_search` request whose non-empty amenities list
contains an id resolving to no stored Amenity returns the empty
list. -/
theorem places_search_unresolved_amenity (st : Storage) (d : SearchData)
    (req : List String) (aid : String)
    (hA : d.amenities = some req) (hmem : aid ∈ req)
    (hbad : st.getAmenity aid = none) :
    places_search st (some d) = (200, Resp.objList []) := by
  have hreq_ne : req ≠ [] := by
    intro e
    rw [e] at hmem
    cases hmem
  have hfalsy : listFalsy d.amenities = false := by
    rw [hA, listFalsy]
    exact List.isEmpty_eq_false.mpr hreq_ne
  have hfilter : ∀ base : List Place,
      base.filter (amenityKeep st (req.map st.getAmenity)) = [] := by
    intro base
    refine List.filter_eq_nil_iff.mpr ?_
    intro p _
    rw [amenityKeep_unresolved p hmem hbad]
    exact Bool.false_ne_true
  rw [places_search]
  rw [if_neg ?hc]
  case hc =>
    rintro (hlen | ⟨_, _, hf⟩)
    · exact searchLen_pos hA hlen
    · rw [hfalsy] at hf
      cases hf
  have hfalsy' : listFalsy (some req) = false := by
    rw [listFalsy]
    exact List.isEmpty_eq_false.mpr hreq_ne
  simp only [hfalsy, hfalsy', Bool.false_eq_true, if_false, hA, Option.getD_some,
    hfilter, List.map_nil]

/-- Witness for C10: the id `ghost` names no amenity, so the search
returns an empty array although places exist. -/
theorem places_search_unresolved_amenity_witness :
    places_search exampleStorage (some ⟨none, none, some ["ghost"], 0⟩) =
      (200, Resp.objList []) :=
  places_search_unresolved_amenity exampleStorage ⟨none, none, some ["ghost"], 0⟩
    ["ghost"] "ghost" rfl (List.mem_cons_self "ghost" []) rfl

/-- C3: with a non-empty amenities list, a candidate set left empty by
the state/city phases is seeded with all places; the result keeps
exactly the places whose amenity-id set contains every requested id
(AND semantics), and every returned object lacks the `amenities`
key. -/
theorem places_search_amenity_superset (st : Storage) (d : SearchData)
    (req : List String)
    (hA : d.amenities = some req) (hne : req ≠ [])
    (hC : searchCandidates st d = [])
    (hres : ∀ aid ∈ req, (st.getAmenity aid).isSome) :
    places_search st (some d) =
      (200, Resp.objList
        ((st.places.filter (fun p => req.all (fun aid => decide (aid ∈ p.amenity_ids)))).map
          (fun p => popKey p.to_dict "amenities"))) ∧
    ∀ o ∈ ((st.places.filter
        (fun p => req.all (fun aid => decide (aid ∈ p.amenity_ids)))).map
          (fun p => popKey p.to_dict "amenities")),
      ∀ kv ∈ o, kv.1 ≠ "amenities" := by
  have hfalsy : listFalsy d.amenities = false := by
    rw [hA, listFalsy]
    exact List.isEmpty_eq_false.mpr hne
  constructor
  · rw [places_search]
    rw [if_neg ?hc]
    case hc =>
      rintro (hlen | ⟨_, _, hf⟩)
      · exact searchLen_pos hA hlen
      · rw [hfalsy] at hf
        cases hf
    have hcongr : st.places.filter (amenityKeep st (req.map st.getAmenity)) =
        st.places.filter (fun p => req.all (fun aid => decide (aid ∈ p.amenity_ids))) :=
      List.filter_congr (fun p _ => amenityKeep_resolved p hres)
    have hfalsy' : listFalsy (some req) = false := by
      rw [listFalsy]
      exact List.isEmpty_eq_false.mpr hne
    simp only [hfalsy, hfalsy', Bool.false_eq_true, if_false, hA, Option.getD_some, hC,
      List.isEmpty_nil, if_true, hcongr]
  · intro o ho
    rw [List.mem_map] at ho
    obtain ⟨p, _, rfl⟩ := ho
    exact popKey_no_key p.to_dict "amenities"

/-- Witness for C3: `{"amenities": ["wifi"]}` against three places of
which `p1` and `p3` carry wifi. -/
theorem places_search_amenity_superset_witness :
    places_search exampleStorage (some ⟨none, none, some ["wifi"], 0⟩) =
      (200, Resp.objList
        ((exampleStorage.places.filter
          (fun p => (["wifi"] : List String).all (fun aid => decide (aid ∈ p.amenity_ids)))).map
          (fun p => popKey p.to_dict "amenities"))) :=
  (places_search_amenity_superset exampleStorage ⟨none, none, some ["wifi"], 0⟩
    ["wifi"] rfl (by decide) rfl (by decide)).1

/-- C4: for a request giving state ids and city ids, the candidate
construction equals the spec-side formulation: the state phase is a
flat concatenation with no de-duplication while the city phase
inserts only absent places — the asymmetry is an exact behavioral
contract. -/
theorem search_candidates_dedup_asymmetry (st : Storage) (d : SearchData)
    (hS : listFalsy d.states = false) (hC : listFalsy d.cities = false) :
    searchCandidates st d =
      cityPhaseSpec st (d.cities.getD []) (statePhaseSpec st (d.states.getD [])) := by
  rw [searchCandidates]
  simp only [hS, hC, Bool.false_eq_true, if_false]
  rw [statePhase_eq_spec, cityPhase_eq_spec]

/-- Witness for C4: duplicated state ids make the state phase emit
each of the three places twice, and the city phase adds none of them
again. -/
theorem search_candidates_dedup_asymmetry_witness :
    searchCandidates exampleStorage exampleSearchBody =
      cityPhaseSpec exampleStorage (exampleSearchBody.cities.getD [])
        (statePhaseSpec exampleStorage (exampleSearchBody.states.getD [])) ∧
    searchCandidates exampleStorage exampleSearchBody =
      [examplePlace "p1" "c1" ["wifi"], examplePlace "p2" "c1" [],
       examplePlace "p3" "c1" ["wifi", "pool"],
       examplePlace "p1" "c1" ["wifi"], examplePlace "p2" "c1" [],
       examplePlace "p3" "c1" ["wifi", "pool"]] :=
  ⟨search_candidates_dedup_asymmetry exampleStorage exampleSearchBody rfl rfl,
    by decide⟩

/-- A stored user whose email should, per the original C6 wording, be
updatable. -/
def exampleUser : PyObj :=
  [("id", JVal.s "u1"), ("email", JVal.s "old@example.com"),
   ("first_name", JVal.s "Ann")]

/-- Storage holding only `exampleUser`. -/
def exampleStorageUser : StorageA :=
  { exampleStorageA with users := [exampleUser] }

/-- C6 counterexample: `PUT /users/u1` with a valid body supplying
`email` (not among the claim's immutable fields `id`, `user_id`,
`city_id`, `state_id`, `place_id`, `created_at`, `updated_at`) and
`first_name` succeeds with 200 and updates `first_name`, but the
stored `email` is NOT updated — refuting "the other supplied fields
are updated". -/
theorem put_user_email_not_updated :
    (put_user exampleStorageUser "u1"
      (some [("email", JVal.s "new@example.com"), ("first_name", JVal.s "Bea")])).1.1
      = 200 ∧
    (put_user exampleStorageUser "u1"
      (some [("email", JVal.s "new@example.com"), ("first_name", JVal.s "Bea")])).2.users
      = [[("id", JVal.s "u1"), ("email", JVal.s "old@example.com"),
          ("first_name", JVal.s "Bea")]] := by
  constructor
  · rfl
  · rfl

/-- C6 (amended): each PUT handler, on an existing entity and a valid
non-empty JSON body with distinct keys, returns 200 with the updated
entity stored; the fields of that handler's own ignore list — `id`,
timestamps, the resource's own foreign keys, and additionally `email`
for users — keep their stored values, while every other supplied
field is updated. -/
theorem put_immutable_fields_per_handler (st : StorageA) (i : String)
    (d o : PyObj) (hnd : (d.map Prod.fst).Nodup) (hne : d ≠ []) :
    (lookupObj st.states i = some o → ∃ o',
      (put_state st i (some d)).1 = (200, Resp.obj o') ∧
      lookupObj (put_state st i (some d)).2.states i = some o' ∧
      (∀ k ∈ ignoreState, getAttr o' k = getAttr o k) ∧
      (∀ kv ∈ d, kv.1 ∉ ignoreState → getAttr o' kv.1 = some kv.2)) ∧
    (lookupObj st.cities i = some o → ∃ o',
      (put_city st i (some d)).1 = (200, Resp.obj o') ∧
      lookupObj (put_city st i (some d)).2.cities i = some o' ∧
      (∀ k ∈ ignoreCity, getAttr o' k = getAttr o k) ∧
      (∀ kv ∈ d, kv.1 ∉ ignoreCity → getAttr o' kv.1 = some kv.2)) ∧
    (lookupObj st.places i = some o → ∃ o',
      (put_place st i (some d)).1 = (200, Resp.obj o') ∧
      lookupObj (put_place st i (some d)).2.places i = some o' ∧
      (∀ k ∈ ignorePlace, getAttr o' k = getAttr o k) ∧
      (∀ kv ∈ d, kv.1 ∉ ignorePlace → getAttr o' kv.1 = some kv.2)) ∧
    (lookupObj st.users i = some o → ∃ o',
      (put_user st i (some d)).1 = (200, Resp.obj o') ∧
      lookupObj (put_user st i (some d)).2.users i = some o' ∧
      (∀ k ∈ ignoreUser, getAttr o' k = getAttr o k) ∧
      (∀ kv ∈ d, kv.1 ∉ ignoreUser → getAttr o' kv.1 = some kv.2)) ∧
    (lookupObj st.reviews i = some o → ∃ o',
      (put_review st i (some d)).1 = (200, Resp.obj o') ∧
      lookupObj (put_review st i (some d)).2.reviews i = some o' ∧
      (∀ k ∈ ignoreReview, getAttr o' k = getAttr o k) ∧
      (∀ kv ∈ d, kv.1 ∉ ignoreReview → getAttr o' kv.1 = some kv.2)) ∧
    (lookupObj st.amenities i = some o → ∃ o',
      (put_amenity st i (some d)).1 = (200, Resp.obj o') ∧
      lookupObj (put_amenity st i (some d)).2.amenities i = some o' ∧
      (∀ k ∈ ignoreAmenity, getAttr o' k = getAttr o k) ∧
      (∀ kv ∈ d, kv.1 ∉ ignoreAmenity → getAttr o' kv.1 = some kv.2)) := by
  have hjf := jsonFalsy_some_of_ne hne
  refine ⟨?_, ?_, ?_, ?_, ?_, ?_⟩
  · intro ho
    refine ⟨applyUpdates ignoreState o d, ?_, ?_, ?_, ?_⟩
    · rw [put_state, ho, hjf]
      rfl
    · have hst : (put_state st i (some d)).2 =
          { st with states := replaceObj st.states i (applyUpdates ignoreState o d) } := by
        rw [put_state, ho, hjf]
        rfl
      rw [hst]
      exact lookupObj_replaceObj _ ho
        (getAttr_applyUpdates_ignored ignoreState o d (by decide))
    · intro k hk
      exact getAttr_applyUpdates_ignored ignoreState o d hk
    · intro kv hkv hkL
      exact getAttr_applyUpdates_updated ignoreState o hnd hkv hkL
  · intro ho
    refine ⟨applyUpdates ignoreCity o d, ?_, ?_, ?_, ?_⟩
    · rw [put_city, ho, hjf]
      rfl
    · have hst : (put_city st i (some d)).2 =
          { st with cities := replaceObj st.cities i (applyUpdates ignoreCity o d) } := by
        rw [put_city, ho, hjf]
        rfl
      rw [hst]
      exact lookupObj_replaceObj _ ho
        (getAttr_applyUpdates_ignored ignoreCity o d (by decide))
    · intro k hk
      exact getAttr_applyUpdates_ignored ignoreCity o d hk
    · intro kv hkv hkL
      exact getAttr_applyUpdates_updated ignoreCity o hnd hkv hkL
  · intro ho
    refine ⟨applyUpdates ignorePlace o d, ?_, ?_, ?_, ?_⟩
    · rw [put_place, ho, hjf]
      rfl
    · have hst : (put_place st i (some d)).2 =
          { st with places := replaceObj st.places i (applyUpdates ignorePlace o d) } := by
        rw [put_place, ho, hjf]
        rfl
      rw [hst]
      exact lookupObj_replaceObj _ ho
        (getAttr_applyUpdates_ignored ignorePlace o d (by decide))
    · intro k hk
      exact getAttr_applyUpdates_ignored ignorePlace o d hk
    · intro kv hkv hkL
      exact getAttr_applyUpdates_updated ignorePlace o hnd hkv hkL
  · intro ho
    refine ⟨applyUpdates ignoreUser o d, ?_, ?_, ?_, ?_⟩
    · rw [put_user, ho, hjf]
      rfl
    · have hst : (put_user st i (some d)).2 =
          { st with users := replaceObj st.users i (applyUpdates ignoreUser o d) } := by
        rw [put_user, ho, hjf]
        rfl
      rw [hst]
      exact lookupObj_replaceObj _ ho
        (getAttr_applyUpdates_ignored ignoreUser o d (by decide))
    · intro k hk
      exact getAttr_applyUpdates_ignored ignoreUser o d hk
    · intro kv hkv hkL
      exact getAttr_applyUpdates_updated ignoreUser o hnd hkv hkL
  · intro ho
    refine ⟨applyUpdates ignoreReview o d, ?_, ?_, ?_, ?_⟩
    · rw [put_review, ho, hjf]
      rfl
    · have hst : (put_review st i (some d)).2 =
          { st with reviews := replaceObj st.reviews i (applyUpdates ignoreReview o d) } := by
        rw [put_review, ho, hjf]
        rfl
      rw [hst]
      exact lookupObj_replaceObj _ ho
        (getAttr_applyUpdates_ignored ignoreReview o d (by decide))
    · intro k hk
      exact getAttr_applyUpdates_ignored ignoreReview o d hk
    · intro kv hkv hkL
      exact getAttr_applyUpdates_updated ignoreReview o hnd hkv hkL
  · intro ho
    refine ⟨applyUpdates ignoreAmenity o d, ?_, ?_, ?_, ?_⟩
    · rw [put_amenity, hjf, ho]
      rfl
    · have hst : (put_amenity st i (some d)).2 =
          { st with amenities := replaceObj st.amenities i (applyUpdates ignoreAmenity o d) } := by
        rw [put_amenity, hjf, ho]
        rfl
      rw [hst]
      exact lookupObj_replaceObj _ ho
        (getAttr_applyUpdates_ignored ignoreAmenity o d (by decide))
    · intro k hk
      exact getAttr_applyUpdates_ignored ignoreAmenity o d hk
    · intro kv hkv hkL
      exact getAttr_applyUpdates_updated ignoreAmenity o hnd hkv hkL

/-- An entity with id `e1` present in every class set, for the C6
witness. -/
def exampleEntity : PyObj := [("id", JVal.s "e1"), ("name", JVal.s "old")]

/-- Storage holding `exampleEntity` in all six classes. -/
def exampleStorageFull : StorageA :=
  ⟨[exampleEntity], [exampleEntity], [exampleEntity],
   [exampleEntity], [exampleEntity], [exampleEntity]⟩

/-- Witness for the amended C6 at a concrete input. -/
theorem put_immutable_fields_per_handler_witness :
    (∃ o', (put_state exampleStorageFull "e1" (some [("name", JVal.s "new")])).1 =
        (200, Resp.obj o') ∧
      lookupObj (put_state exampleStorageFull "e1"
        (some [("name", JVal.s "new")])).2.states "e1" = some o' ∧
      (∀ k ∈ ignoreState, getAttr o' k = getAttr exampleEntity k) ∧
      (∀ kv ∈ [(("name" : String), JVal.s "new")], kv.1 ∉ ignoreState →
        getAttr o' kv.1 = some kv.2)) ∧
    (∃ o', (put_amenity exampleStorageFull "e1" (some [("name", JVal.s "new")])).1 =
        (200, Resp.obj o') ∧
      lookupObj (put_amenity exampleStorageFull "e1"
        (some [("name", JVal.s "new")])).2.amenities "e1" = some o' ∧
      (∀ k ∈ ignoreAmenity, getAttr o' k = getAttr exampleEntity k) ∧
      (∀ kv ∈ [(("name" : String), JVal.s "new")], kv.1 ∉ ignoreAmenity →
        getAttr o' kv.1 = some kv.2)) := by
  have h := put_immutable_fields_per_handler exampleStorageFull "e1"
    [("name", JVal.s "new")] exampleEntity (by decide) (by decide)
  exact ⟨h.1 rfl, h.2.2.2.2.2 rfl⟩

end AirBnB
